import Mathlib

/-!
Shallow embedding of the CSV analysis subsystem of the `ai-chatbot`
repository (files `src/lib/tools/csv/parser.ts`, `src/lib/ai/tools/analyze-csv.ts`,
`src/lib/ai/tools/query-csv-rows.ts`, `src/lib/blob/r2.ts`), together with
theorems settling the frozen claims about its specification.

Modelling conventions:
* JavaScript numbers are modelled by exact rationals `ℚ`.  The claims settled
  here depend only on parse success/failure, list structure, comparisons of
  small integer-valued quantities and exact threshold fractions, where IEEE
  doubles and rationals agree.
* A JavaScript `string | number` cell value is the inductive `Cell`.
* `undefined` (a missing object property) is `Option.none` at lookup sites.
* `NaN` and `±Infinity` results of string→number conversion are modelled by
  `Option.none` / the `JSNum` inductive.
-/

namespace CSV

/-- A cell value of a parsed row: JavaScript `string | number`. -/
inductive Cell where
  | num (q : ℚ)
  | str (s : String)
deriving DecidableEq, Repr

/-- Result of JavaScript numeric conversion: `NaN`, a signed infinity, or a
finite value. -/
inductive JSNum where
  | nan
  | inf (neg : Bool)
  | fin (q : ℚ)
deriving DecidableEq, Repr

/-- JavaScript whitespace characters skipped by `parseFloat` / `Number`
(the common ASCII ones; exotic Unicode space separators are not exercised by
any claim). -/
def isWS (c : Char) : Bool :=
  c = ' ' || c = '\t' || c = '\n' || c = '\r' || c = '\x0b' || c = '\x0c'

/-- Numeric value of a list of decimal digit characters, most significant
first. -/
def natFromDigits (l : List Char) : ℕ :=
  l.foldl (fun a c => a * 10 + (c.toNat - 48)) 0

/-- Splits a character list into its longest prefix of decimal digits and the
rest. -/
def spanDigits : List Char → List Char × List Char
  | [] => ([], [])
  | c :: cs =>
    if c.isDigit then
      let p := spanDigits cs
      (c :: p.1, p.2)
    else
      ([], c :: cs)

/-- Parses the longest prefix of `l` that is a JS `StrDecimalLiteral` without
sign: `digits [. digits] [e|E [sign] digits]`, requiring at least one digit
before or after the dot.  Mirrors the prefix-parsing behaviour of JavaScript
`parseFloat` (an exponent marker not followed by digits is not consumed).
Returns the exact value and the unconsumed remainder, or `none` (JS `NaN`). -/
def parseDecimal (l : List Char) : Option (ℚ × List Char) :=
  let p1 := spanDigits l
  let d1 := p1.1
  let p2 :=
    match p1.2 with
    | '.' :: rest => spanDigits rest
    | _ => ([], p1.2)
  let d2 := p2.1
  if d1.isEmpty && d2.isEmpty then
    none
  else
    let base : ℚ := (natFromDigits d1 : ℚ) + (natFromDigits d2 : ℚ) / ((10 : ℚ) ^ d2.length)
    let withExp : ℚ × List Char :=
      match p2.2 with
      | 'e' :: rest => parseExpTail base p2.2 rest
      | 'E' :: rest => parseExpTail base p2.2 rest
      | _ => (base, p2.2)
    some withExp
where
  /-- Parses `[sign] digits` after an already-seen exponent marker; if no
  digits follow, the marker is left unconsumed (JS `parseFloat "1e"` = 1). -/
  parseExpTail (base : ℚ) (noExpRest rest : List Char) : ℚ × List Char :=
    let pSign : Bool × List Char :=
      match rest with
      | '+' :: r => (false, r)
      | '-' :: r => (true, r)
      | _ => (false, rest)
    let pd := spanDigits pSign.2
    if pd.1.isEmpty then (base, noExpRest)
    else
      let e := natFromDigits pd.1
      (if pSign.1 then base / ((10 : ℚ) ^ e) else base * ((10 : ℚ) ^ e), pd.2)

/-- JavaScript `Number.parseFloat` on a string: skip leading whitespace, read
an optional sign, then either an `Infinity` prefix or the longest decimal
prefix; `NaN` when no numeric prefix exists.  (Finite values are exact
rationals here rather than rounded doubles.) -/
def jsParseFloat (s : String) : JSNum :=
  let l := s.data.dropWhile isWS
  let signed : Bool × List Char :=
    match l with
    | '+' :: r => (false, r)
    | '-' :: r => (true, r)
    | _ => (false, l)
  if "Infinity".data.isPrefixOf signed.2 then
    JSNum.inf signed.1
  else
    match parseDecimal signed.2 with
    | none => JSNum.nan
    | some p => JSNum.fin (if signed.1 then -p.1 else p.1)

/-- Mirrors `isNumeric` of `src/lib/tools/csv/parser.ts`: empty string is not
numeric; otherwise `Number.parseFloat` must yield a value that is neither
`NaN` nor infinite.  (The `null`/`undefined` guards of the source cannot arise
for a `String` argument.) -/
def isNumeric (value : String) : Bool :=
  if value = "" then false
  else
    match jsParseFloat value with
    | JSNum.fin _ => true
    | _ => false

/-- The finite value of `Number.parseFloat value`, with an arbitrary default
in the non-finite cases (used only under an `isNumeric` guard, exactly as the
source only reads `parseFloat value` under that guard). -/
def parseFloatVal (value : String) : ℚ :=
  match jsParseFloat value with
  | JSNum.fin q => q
  | _ => 0

/-- The per-cell conversion performed inside `parseCSV`:
`isNumeric(value) ? Number.parseFloat(value) : value`. -/
def convertCell (value : String) : Cell :=
  if isNumeric value then Cell.num (parseFloatVal value) else Cell.str value

/-- A parsed row: an association list from header to cell, in header order.
JavaScript object property access `row[h]` is `row.lookup h` (`none` models
`undefined`). -/
def Row : Type := List (String × Cell)

instance : DecidableEq Row := by
  unfold Row
  infer_instance

/-- Mirrors the `ParsedCSV` record of `src/lib/tools/csv/parser.ts`. -/
structure ParsedCSV where
  headers : List String
  rows : List Row
  rowCount : ℕ
  columnCount : ℕ
deriving DecidableEq

/-- Conversion of one PapaParse record (header ↦ raw string, in key order)
into a typed row: for each header, convert the raw value when present.
(In JS a missing key would store `undefined` under the header; here the entry
is simply absent — both read back as `none`/null downstream.) -/
def parseCSVrow (headers : List String) (raw : List (String × String)) : Row :=
  headers.filterMap (fun h => (raw.lookup h).map (fun v => (h, convertCell v)))

/-- Mirrors `parseCSV` of `src/lib/tools/csv/parser.ts` from the point where
PapaParse has produced its records (`Papa.parse` with `header: true` is an
external library; its output — one association list of raw strings per data
row, keys in first-row order — is the input here).  Throws (models
`throw new Error`) when there are no data rows; otherwise takes the headers
from the first record's keys and converts every cell. -/
def parseCSV (data : List (List (String × String))) : Except String ParsedCSV :=
  if data.isEmpty then
    Except.error "CSV file is empty or could not be parsed"
  else
    let headers := (data.headD []).map Prod.fst
    let rows := data.map (parseCSVrow headers)
    Except.ok ⟨headers, rows, rows.length, headers.length⟩

/-- Tests whether `n` decimal digits start at the head of `l`, returning the
remainder on success. -/
def digitsExactly : ℕ → List Char → Option (List Char)
  | 0, l => some l
  | _ + 1, [] => none
  | n + 1, c :: cs => if c.isDigit then digitsExactly n cs else none

/-- Matches the first alternative of `DATE_PATTERN`
(`/^\d{4}-\d{2}-\d{2}|\d{1,2}\/\d{1,2}\/\d{2,4}/`), which is anchored at the
start: `\d{4}-\d{2}-\d{2}` as a prefix of `l`. -/
def isoDatePrefix (l : List Char) : Bool :=
  match digitsExactly 4 l with
  | none => false
  | some r1 =>
    match r1 with
    | '-' :: r2 =>
      match digitsExactly 2 r2 with
      | none => false
      | some r3 =>
        match r3 with
        | '-' :: r4 => (digitsExactly 2 r4).isSome
        | _ => false
    | _ => false

/-- Matches the second, unanchored alternative of `DATE_PATTERN`
(`\d{1,2}\/\d{1,2}\/\d{2,4}`) at the head of `l`: a regex repetition
`\d{a,b}` matches here iff some count in `[a,b]` does. -/
def slashDateHere (l : List Char) : Bool :=
  [1, 2].any fun a =>
    match digitsExactly a l with
    | none => false
    | some r1 =>
      match r1 with
      | '/' :: r2 =>
        [1, 2].any fun b =>
          match digitsExactly b r2 with
          | none => false
          | some r3 =>
            match r3 with
            | '/' :: r4 => [2, 3, 4].any fun c => (digitsExactly c r4).isSome
            | _ => false
      | _ => false

/-- Mirrors `DATE_PATTERN.test(value)`: the ISO alternative anchored at the
start, or the slash alternative anywhere in the string. -/
def isDateLike (s : String) : Bool :=
  isoDatePrefix s.data || anySuffix s.data
where
  /-- Scans every suffix for the unanchored slash alternative. -/
  anySuffix : List Char → Bool
    | [] => slashDateHere []
    | c :: cs => slashDateHere (c :: cs) || anySuffix cs

/-- The null test performed throughout the source
(`value === null || value === undefined || value === ''`): on a present cell
only the empty string is null-like. -/
def cellIsNull (c : Cell) : Bool :=
  match c with
  | Cell.str "" => true
  | _ => false

/-- Cells counted as numeric by `detectColumnType` (`typeof value === 'number'`). -/
def cellIsNum (c : Cell) : Bool :=
  match c with
  | Cell.num _ => true
  | _ => false

/-- Cells counted as dates by `detectColumnType`: strings matching `DATE_PATTERN`. -/
def cellIsDate (c : Cell) : Bool :=
  match c with
  | Cell.num _ => false
  | Cell.str s => isDateLike s

/-- The column type enumeration of `ColumnStats['type']`. -/
inductive ColType where
  | numeric
  | text
  | date
  | mixed
deriving DecidableEq, Repr

/-- The `numericCount` of `detectColumnType`'s loop over `values`. -/
def numCount (values : List Cell) : ℕ :=
  ((values.filter (fun c => !cellIsNull c)).filter cellIsNum).length

/-- The `dateCount` of `detectColumnType`'s loop. -/
def dateCount (values : List Cell) : ℕ :=
  ((values.filter (fun c => !cellIsNull c)).filter cellIsDate).length

/-- The `textCount` of `detectColumnType`'s loop: non-null strings not
matching the date pattern. -/
def textCount (values : List Cell) : ℕ :=
  ((values.filter (fun c => !cellIsNull c)).filter
    (fun c => !cellIsNum c && !cellIsDate c)).length

/-- Mirrors `detectColumnType` of `src/lib/tools/csv/parser.ts`: count
non-null values by kind, then compare each fraction against the literal
`0.8` with strict `>`.  When `total = 0` JavaScript computes `NaN / NaN`
comparisons, all false; here `0 / 0 = 0` in `ℚ`, likewise all false — both
yield `mixed`. -/
def detectColumnType (values : List Cell) : ColType :=
  let total := numCount values + textCount values + dateCount values
  if (numCount values : ℚ) / (total : ℚ) > 4 / 5 then ColType.numeric
  else if (dateCount values : ℚ) / (total : ℚ) > 4 / 5 then ColType.date
  else if (textCount values : ℚ) / (total : ℚ) > 4 / 5 then ColType.text
  else ColType.mixed

/-- Rounding through `Number.parseFloat(x.toFixed(2))`: two decimal places
(ties rounded up; the claims proved here do not inspect tie behaviour). -/
def round2 (q : ℚ) : ℚ :=
  (⌊q * 100 + 1 / 2⌋ : ℚ) / 100

/-- The five numeric statistics of `calculateNumericStats`, as optional
fields ready to be `Object.assign`ed onto a `ColumnStats` (in JS, indexing an
empty sorted array yields `undefined`, modelled by `none`; the function is
only invoked on the numeric values of a numeric-typed column, which are
nonempty). -/
structure NumericStats where
  min : Option ℚ
  max : Option ℚ
  mean : Option ℚ
  median : Option ℚ
  sum : Option ℚ
deriving DecidableEq, Repr

/-- Mirrors `calculateNumericStats`: sort ascending
(`[...values].sort((a,b) => a-b)`), then `min = sorted[0]`,
`max = sorted.at(-1) ?? 0`, `mean = sum/length`, `median =
sorted[Math.floor(sorted.length/2)]`, `sum` by left fold from 0; `mean` and
`sum` rounded to 2 decimals.  (On the empty list JS would produce
`undefined`/`NaN` for min/median/mean; min and median are `none` here, and
the unreachable mean is left unrounded-zero.) -/
def calculateNumericStats (values : List ℚ) : NumericStats :=
  let sorted := List.insertionSort (fun a b => a ≤ b) values
  let sum := values.foldl (fun acc val => acc + val) 0
  let mean := sum / (values.length : ℚ)
  { min := sorted.head?
    max := some (sorted.getLastD 0)
    mean := some (round2 mean)
    median := sorted.get? (sorted.length / 2)
    sum := some (round2 sum) }

/-- JavaScript `String(value)` on a cell.  Integer numbers print as their
decimal numeral; non-integer number formatting (shortest round-trip decimal
in JS) is approximated by the rational's `num/den` form — no claim inspects
`String()` of a non-integer. -/
def cellToString (c : Cell) : String :=
  match c with
  | Cell.str s => s
  | Cell.num q => if q.den = 1 then toString q.num else toString q

/-- The frequency table built by `findMostCommon`: association list from
`String(val)` to count, keys in first-seen order.  (JavaScript `Object.entries`
would move canonical-integer keys to the front; no claim proved here depends
on the entry order.) -/
def freqTable (values : List Cell) : List (String × ℕ) :=
  values.foldl
    (fun acc val =>
      let key := cellToString val
      if acc.lookup key |>.isSome then
        acc.map (fun kv => if kv.1 = key then (kv.1, kv.2 + 1) else kv)
      else
        acc ++ [(key, 1)])
    []

/-- Mirrors `findMostCommon`: fold over the frequency table keeping the first
strictly-largest count, starting from `('', 0)`. -/
def findMostCommon (values : List Cell) : String × ℕ :=
  (freqTable values).foldl
    (fun best kv => if kv.2 > best.2 then kv else best)
    ("", 0)

/-- Mirrors the `ColumnStats` record of `src/lib/tools/csv/parser.ts`
(optional fields as `Option`). -/
structure ColumnStats where
  column : String
  type : ColType
  count : ℕ
  nullCount : ℕ
  uniqueCount : ℕ
  min : Option ℚ := none
  max : Option ℚ := none
  mean : Option ℚ := none
  median : Option ℚ := none
  sum : Option ℚ := none
  mostCommon : Option String := none
  mostCommonCount : Option ℕ := none
deriving DecidableEq, Repr

/-- The non-null values of a column, in row order: `rows.map(row =>
row[columnName]).filter(v => v !== null && v !== undefined && v !== '')`. -/
def nonNullValues (columnName : String) (rows : List Row) : List Cell :=
  (rows.map (fun row => row.lookup columnName)).filterMap
    (fun v =>
      match v with
      | none => none
      | some c => if cellIsNull c then none else some c)

/-- The numeric values filtered out of the non-null values
(`nonNullValues.filter(v => typeof v === 'number')`). -/
def numericValuesOf (values : List Cell) : List ℚ :=
  values.filterMap
    (fun c =>
      match c with
      | Cell.num q => some q
      | Cell.str _ => none)

/-- Mirrors `analyzeColumn` of `src/lib/tools/csv/parser.ts`. -/
def analyzeColumn (columnName : String) (rows : List Row) : ColumnStats :=
  let nn := nonNullValues columnName rows
  let type := detectColumnType nn
  let base : ColumnStats :=
    { column := columnName
      type := type
      count := nn.length
      nullCount := rows.length - nn.length
      uniqueCount := nn.dedup.length }
  let withNum :=
    if type = ColType.numeric then
      let ns := calculateNumericStats (numericValuesOf nn)
      { base with min := ns.min, max := ns.max, mean := ns.mean,
                  median := ns.median, sum := ns.sum }
    else base
  if type = ColType.text ∨ type = ColType.mixed then
    let mc := findMostCommon nn
    { withNum with mostCommon := some mc.1, mostCommonCount := some mc.2 }
  else withNum

/-- Mirrors the `recommendations` record of `DataAnalysis`. -/
structure Recommendation where
  suggestedChartType : String
  xAxis : Option String := none
  yAxis : Option (List String) := none
  reasoning : String
deriving DecidableEq, Repr

/-- Name of the first column of a nonempty stats list (`list[0].column`; used
only under nonemptiness guards, exactly where the source indexes `[0]`). -/
def firstColumnName (l : List ColumnStats) : String :=
  ((l.head?).map ColumnStats.column).getD ""

/-- Mirrors `generateVisualizationRecommendations` of
`src/lib/tools/csv/parser.ts` (the `_parsed` argument is unused by the
source).  The two `find`-guarded branches fall through to the later rules
when their `find` fails, exactly as the source's nested `if` does. -/
def generateVisualizationRecommendations (columnStats : List ColumnStats) :
    Recommendation :=
  let numericColumns := columnStats.filter (fun c => c.type = ColType.numeric)
  let textColumns := columnStats.filter (fun c => c.type = ColType.text)
  let dateColumns := columnStats.filter (fun c => c.type = ColType.date)
  if !dateColumns.isEmpty && !numericColumns.isEmpty then
    { suggestedChartType := "line"
      xAxis := (dateColumns.head?).map ColumnStats.column
      yAxis := some (numericColumns.map ColumnStats.column)
      reasoning := "Time series data detected. Line chart shows trends over time." }
  else
    match
      (if !textColumns.isEmpty && numericColumns.length == 1 then
        textColumns.find? (fun c => c.uniqueCount < 20)
      else none) with
    | some categoryCol =>
      { suggestedChartType := "column"
        xAxis := some categoryCol.column
        yAxis := some [firstColumnName numericColumns]
        reasoning := "Categorical data with numeric values. Column chart shows comparison between categories." }
    | none =>
      if numericColumns.length ≥ 2 then
        { suggestedChartType := "line"
          xAxis := some (firstColumnName numericColumns)
          yAxis := some ((numericColumns.drop 1).map ColumnStats.column)
          reasoning := "Multiple numeric columns detected. Line chart shows comparison between variables." }
      else if numericColumns.length == 1 then
        { suggestedChartType := "histogram"
          xAxis := some (firstColumnName numericColumns)
          yAxis := some []
          reasoning := "Single numeric column. Histogram shows data distribution." }
      else
        match
          (if !textColumns.isEmpty then
            textColumns.find? (fun c => c.uniqueCount < 10)
          else none) with
        | some categoryCol =>
          { suggestedChartType := "pie"
            xAxis := some categoryCol.column
            yAxis := some []
            reasoning := "Categorical data with few categories. Pie chart shows proportions." }
        | none =>
          { suggestedChartType := "column"
            reasoning := "General purpose column chart for data overview." }

/-- Mirrors `analyzeData`: per-column stats in header order, plus the
recommendation. -/
structure DataAnalysis where
  totalRows : ℕ
  totalColumns : ℕ
  columnNames : List String
  columnStats : List ColumnStats
  recommendations : Recommendation
deriving DecidableEq, Repr

/-- Mirrors `analyzeData` of `src/lib/tools/csv/parser.ts`. -/
def analyzeData (parsed : ParsedCSV) : DataAnalysis :=
  let columnStats := parsed.headers.map (fun h => analyzeColumn h parsed.rows)
  { totalRows := parsed.rowCount
    totalColumns := parsed.columnCount
    columnNames := parsed.headers
    columnStats := columnStats
    recommendations := generateVisualizationRecommendations columnStats }

/-! Chart data builder: the `case "histogram"` branch of `generateChartData`
in `src/lib/ai/tools/analyze-csv.ts`. -/

/-- JavaScript `Number(string)` restricted to the forms exercised here:
whitespace-trimmed; empty → 0; otherwise the whole string must be a decimal
literal (optionally signed).  `none` models the non-finite results (`NaN`,
`±Infinity`) that `safeNumber` maps to 0.  (Hex/octal/binary literals are not
exercised by any claim.) -/
def jsNumber (s : String) : Option ℚ :=
  let l := (s.data.dropWhile isWS).reverse.dropWhile isWS |>.reverse
  if l.isEmpty then some 0
  else
    let signed : Bool × List Char :=
      match l with
      | '+' :: r => (false, r)
      | '-' :: r => (true, r)
      | _ => (false, l)
    if signed.2 = "Infinity".data then none
    else
      match parseDecimal signed.2 with
      | some (q, []) => some (if signed.1 then -q else q)
      | _ => none

/-- Mirrors the `safeNumber` helper of `generateChartData`: `Number(value)`
with `NaN`/non-finite coerced to 0 (on `undefined`, `Number` gives `NaN`,
hence 0). -/
def safeNumber (v : Option Cell) : ℚ :=
  match v with
  | none => 0
  | some (Cell.num q) => q
  | some (Cell.str s) => (jsNumber s).getD 0

/-- The numeric column chosen by the histogram branch: first header whose
stats entry is numeric, else the first header
(`parsed.headers.find(...) || parsed.headers[0]`). -/
def histColumn (parsed : ParsedCSV) (columnStats : List ColumnStats) : String :=
  (parsed.headers.find? (fun h =>
      ((columnStats.find? (fun s => s.column = h)).map
        (fun s => decide (s.type = ColType.numeric))).getD false)).getD
    (parsed.headers.headD "")

/-- The `values` array of the histogram branch: every row's value in the
chosen column through `safeNumber`, then the filter
`v !== 0 || parsed.rows.some(r => safeNumber(r[col]) === 0)` (which keeps
every element: a zero in the mapped list itself witnesses the `some`). -/
def histValues (parsed : ParsedCSV) (columnStats : List ColumnStats) : List ℚ :=
  let col := histColumn parsed columnStats
  let m := parsed.rows.map (fun row => safeNumber (row.lookup col))
  m.filter (fun v => decide (v ≠ 0) || m.any (fun x => decide (x = 0)))

/-- JavaScript `Math.min(...values)` over a nonempty list (the empty case,
`+Infinity` in JS, is unreachable under the source's length guard). -/
def jsMin (l : List ℚ) : ℚ :=
  match l with
  | [] => 0
  | x :: xs => xs.foldl min x

/-- JavaScript `Math.max(...values)` over a nonempty list. -/
def jsMax (l : List ℚ) : ℚ :=
  match l with
  | [] => 0
  | x :: xs => xs.foldl max x

/-- The `binSize` of the histogram branch: `range/10` when `range > 0`,
else the synthetic width 1. -/
def histBinSize (values : List ℚ) : ℚ :=
  let range := jsMax values - jsMin values
  if range > 0 then range / 10 else 1

/-- The bin index assigned to one value:
`range > 0 ? Math.min(Math.floor((value-min)/binSize), 9) : 0`. -/
def histBinIndex (values : List ℚ) (v : ℚ) : ℕ :=
  let range := jsMax values - jsMin values
  if range > 0 then
    min (⌊(v - jsMin values) / histBinSize values⌋.toNat) 9
  else 0

/-- Array update `bins[idx]++` on a count list (out-of-range leaves `l`
unchanged; indices are always `< 10` here). -/
def incAt (l : List ℕ) (i : ℕ) : List ℕ :=
  l.set i (l.getD i 0 + 1)

/-- Rounding through `x.toFixed(1)`: the printed one-decimal string
(ties toward `+∞`; negative values prefixed with a minus — close enough to
JS for the label strings, whose content no claim inspects beyond count). -/
def toFixed1 (q : ℚ) : String :=
  let n : ℤ := ⌊q * 10 + 1 / 2⌋
  let a := n.natAbs
  let core := toString (a / 10) ++ "." ++ toString (a % 10)
  if n < 0 then "-" ++ core else core

/-- The data part of a single-dataset chart: labels plus one count series. -/
structure HistChartData where
  labels : List String
  binData : List ℕ
  datasetLabel : String
deriving DecidableEq, Repr

/-- Mirrors the `case "histogram"` branch of `generateChartData` in
`src/lib/ai/tools/analyze-csv.ts`: on empty values the `"No Data"`
placeholder, otherwise ten equal bins filled by a pass over the values and
ten `"{lo}-{hi}"` labels. -/
def generateChartDataHistogram (parsed : ParsedCSV)
    (columnStats : List ColumnStats) : HistChartData :=
  let numericColumn := histColumn parsed columnStats
  let values := histValues parsed columnStats
  if values.isEmpty then
    { labels := ["No Data"], binData := [0], datasetLabel := numericColumn }
  else
    let bins := values.foldl (fun b v => incAt b (histBinIndex values v))
      (List.replicate 10 0)
    let labels := (List.range 10).map (fun (i : ℕ) =>
      let start := jsMin values + (i : ℚ) * histBinSize values
      toFixed1 start ++ "-" ++ toFixed1 (start + histBinSize values))
    { labels := labels, binData := bins, datasetLabel := numericColumn }

/-! Intent analyzer: `src/lib/blob/r2.ts`. -/

/-- JavaScript `toLowerCase` (ASCII case mapping; the fixed keyword lists are
ASCII). -/
def jsToLower (s : String) : String :=
  ⟨s.data.map Char.toLower⟩

/-- Decides whether `pat` occurs as a contiguous sublist of `l`
(JavaScript `String.prototype.includes`). -/
def listIncludes (l pat : List Char) : Bool :=
  match l with
  | [] => pat.isEmpty
  | _ :: tl => pat.isPrefixOf l || listIncludes tl pat

/-- JavaScript `a.includes(b)`. -/
def jsIncludes (a b : String) : Bool :=
  listIncludes a.data b.data

/-- The `analysisKeywords` list of `detectAnalysisIntent`. -/
def analysisKeywords : List String :=
  ["analyze", "analysis", "examine", "inspect", "study",
   "summarize", "summary", "statistics", "stats",
   "describe", "overview", "insights", "trends",
   "calculate", "compute", "find", "determine"]

/-- The `visualizationKeywords` list of `detectAnalysisIntent`. -/
def visualizationKeywords : List String :=
  ["visualize", "visualization", "plot", "chart", "graph",
   "show", "display", "draw", "create chart", "make chart",
   "bar chart", "line chart", "pie chart", "scatter plot",
   "histogram", "heatmap", "compare", "comparison"]

/-- The `explorationKeywords` list of `detectAnalysisIntent`. -/
def explorationKeywords : List String :=
  ["explore", "explore data", "what's in", "what is in",
   "show me", "tell me about", "breakdown", "distribution",
   "look at", "review", "check", "view"]

/-- Mirrors `detectAnalysisIntent` of `src/lib/blob/r2.ts`: false without an
attachment, else any keyword occurs in the lowercased prompt. -/
def detectAnalysisIntent (prompt : String) (hasCSVAttachment : Bool) : Bool :=
  if !hasCSVAttachment then false
  else
    let lowerPrompt := jsToLower prompt
    (analysisKeywords ++ visualizationKeywords ++ explorationKeywords).any
      (fun keyword => jsIncludes lowerPrompt keyword)

/-- The ordered chart-type keyword groups of `detectVisualizationType`. -/
def chartTypeGroups : List (List String × String) :=
  [(["bar chart", "bar graph", "bars", "column chart"], "bar"),
   (["line chart", "line graph", "lines", "trend line", "time series"], "line"),
   (["pie chart", "pie graph", "pie"], "pie"),
   (["scatter", "scatter plot", "scatterplot"], "scatter"),
   (["histogram", "distribution", "frequency"], "histogram"),
   (["heatmap", "heat map", "correlation"], "heatmap"),
   (["area chart", "area graph"], "area")]

/-- Mirrors `detectVisualizationType`: the first group (in list order) with a
keyword occurring in the lowercased prompt. -/
def detectVisualizationType (prompt : String) : Option String :=
  let lowerPrompt := jsToLower prompt
  ((chartTypeGroups.find? (fun g =>
      g.1.any (fun kw => jsIncludes lowerPrompt kw))).map Prod.snd)

/-- JavaScript word characters (`\w` ≡ `[A-Za-z0-9_]`). -/
def isWordChar (c : Char) : Bool :=
  c.isAlpha || c.isDigit || c = '_'

/-- Match of the word pattern at the head of `l`: the pattern is a prefix and
the following character (if any) is not a word character. -/
def wordMatchAt (pat l : List Char) : Bool :=
  pat.isPrefixOf l && !(((l.drop pat.length).head?.map isWordChar).getD false)

/-- Scans every position of the text for a word-boundary match, tracking the
preceding character (`none` at the start of the text). -/
def wordScan (pat : List Char) : Option Char → List Char → Bool
  | prev, [] => !((prev.map isWordChar).getD false) && wordMatchAt pat []
  | prev, c :: cs =>
    (!((prev.map isWordChar).getD false) && wordMatchAt pat (c :: cs))
      || wordScan pat (some c) cs

/-- Case-insensitive whole-word occurrence of `header` in `prompt`, mirroring
the `RegExp` word-boundary test of `extractColumnReferences` for headers that
start and end with word characters (headers containing regex metacharacters
would be reinterpreted by JS; no claim exercises such headers). -/
def wordOccurs (header prompt : String) : Bool :=
  wordScan (jsToLower header).data none (jsToLower prompt).data

/-- Mirrors `extractColumnReferences`: the headers whose name occurs as a
whole word in the prompt, in header order. -/
def extractColumnReferences (prompt : String) (csvHeaders : List String) :
    List String :=
  csvHeaders.filter (fun header => wordOccurs header prompt)

/-- The `comparisonKeywords` list of `detectComparisonIntent`. -/
def comparisonKeywords : List String :=
  ["compare", "comparison", "versus", "vs", "vs.",
   "difference", "differences", "contrast",
   "between", "against", "correlation",
   "relationship", "relate", "related"]

/-- Mirrors `detectComparisonIntent`. -/
def detectComparisonIntent (prompt : String) : Bool :=
  comparisonKeywords.any (fun keyword => jsIncludes (jsToLower prompt) keyword)

/-- The confidence levels of `IntentAnalysis`. -/
inductive Confidence where
  | high
  | medium
  | low
deriving DecidableEq, Repr

/-- Mirrors the `IntentAnalysis` record of `src/lib/blob/r2.ts`. -/
structure IntentAnalysis where
  shouldAnalyze : Bool
  chartType : Option String
  columns : List String
  isComparison : Bool
  confidence : Confidence
deriving DecidableEq, Repr

/-- Mirrors `analyzeIntent` of `src/lib/blob/r2.ts`: the early return when no
attachment is present, else the four keyword analyses and the confidence
ladder. -/
def analyzeIntent (prompt : String) (hasCSVAttachment : Bool)
    (csvHeaders : Option (List String)) : IntentAnalysis :=
  if !hasCSVAttachment then
    { shouldAnalyze := false
      chartType := none
      columns := []
      isComparison := false
      confidence := Confidence.high }
  else
    let shouldAnalyze := detectAnalysisIntent prompt hasCSVAttachment
    let chartType := detectVisualizationType prompt
    let columns :=
      match csvHeaders with
      | some hs => extractColumnReferences prompt hs
      | none => []
    let isComparison := detectComparisonIntent prompt
    let confidence :=
      if shouldAnalyze && chartType.isSome then Confidence.high
      else if shouldAnalyze then Confidence.medium
      else Confidence.low
    { shouldAnalyze := shouldAnalyze
      chartType := chartType
      columns := columns
      isComparison := isComparison
      confidence := confidence }

/-! Row query engine: `src/lib/ai/tools/query-csv-rows.ts`. -/

/-- The comparison operators of the row-query filter schema. -/
inductive FilterOp where
  | equals
  | contains
  | greater_than
  | less_than
  | not_equals
deriving DecidableEq, Repr

/-- One filter of a row query (`value` is `string | number`, i.e. a `Cell`). -/
structure Filter where
  column : String
  operator : FilterOp
  value : Cell
deriving DecidableEq, Repr

/-- JavaScript string `<` comparison: lexicographic by code unit (code point
for the ASCII strings exercised here). -/
def jsStrLt : List Char → List Char → Bool
  | _, [] => false
  | [], _ :: _ => true
  | a :: as, b :: bs =>
    if a < b then true
    else if b < a then false
    else jsStrLt as bs

/-- Evaluates one filter operator on a present cell value, mirroring the
`switch` of `applyFilters`. -/
def evalFilterOp (op : FilterOp) (cellValue filterValue : Cell) : Bool :=
  match op with
  | FilterOp.equals =>
    jsToLower (cellToString cellValue) = jsToLower (cellToString filterValue)
  | FilterOp.not_equals =>
    jsToLower (cellToString cellValue) ≠ jsToLower (cellToString filterValue)
  | FilterOp.contains =>
    jsIncludes (jsToLower (cellToString cellValue))
      (jsToLower (cellToString filterValue))
  | FilterOp.greater_than =>
    match cellValue, filterValue with
    | Cell.num a, Cell.num b => decide (a > b)
    | _, _ => jsStrLt (cellToString filterValue).data (cellToString cellValue).data
  | FilterOp.less_than =>
    match cellValue, filterValue with
    | Cell.num a, Cell.num b => decide (a < b)
    | _, _ => jsStrLt (cellToString cellValue).data (cellToString filterValue).data

/-- Mirrors `applyFilters`: rows are kept when every filter matches; a
missing (or JS-null) column value fails the filter. -/
def applyFilters (rows : List Row) (filters : List Filter) : List Row :=
  if filters.isEmpty then rows
  else
    rows.filter (fun row =>
      filters.all (fun filter =>
        match row.lookup filter.column with
        | none => false
        | some cellValue => evalFilterOp filter.operator cellValue filter.value))

/-- Mirrors `selectColumns`: no/empty selection returns the rows unchanged;
otherwise each row is projected to the requested columns, silently dropping
absent names. -/
def selectColumns (rows : List Row) (columns : Option (List String)) : List Row :=
  match columns with
  | none => rows
  | some cols =>
    if cols.isEmpty then rows
    else
      rows.map (fun row =>
        cols.filterMap (fun col => (row.lookup col).map (fun v => (col, v))))

/-- JavaScript `Array.prototype.slice(start, end)` on a list: negative
indices count from the end, both clamped to `[0, length]`. -/
def jsSlice (l : List Row) (start stop : ℤ) : List Row :=
  let len : ℤ := l.length
  let norm : ℤ → ℕ := fun i => if i < 0 then (max (len + i) 0).toNat else (min i len).toNat
  (l.take (norm stop)).drop (norm start)

/-- The request parameters of one `queryCSVRows` call (schema defaults:
`limit` 50, `offset` 0; both are JS numbers, taken as integers here — the
slice call truncates fractional indices anyway). -/
structure QueryRequest where
  filters : List Filter := []
  columns : Option (List String) := none
  limit : ℤ := 50
  offset : ℤ := 0
deriving DecidableEq, Repr

/-- The result fields of a successful `queryCSVRows` call that the claims
inspect. -/
structure QueryResult where
  totalRows : ℕ
  matchingRows : ℕ
  returnedRows : ℕ
  offset : ℤ
  limit : ℤ
  rows : List Row
  headers : List String
deriving DecidableEq

/-- Mirrors the post-parse pipeline of `queryCSVRows.execute`:
`safeLimit = Math.min(limit, 1000)`, filter, project, then
`slice(offset, offset + safeLimit)`. -/
def queryCSVRowsCore (parsed : ParsedCSV) (req : QueryRequest) : QueryResult :=
  let safeLimit := min req.limit 1000
  let filteredRows := applyFilters parsed.rows req.filters
  let selectedHeaders :=
    match req.columns with
    | some cols => if cols.isEmpty then parsed.headers else cols
    | none => parsed.headers
  let projected := selectColumns filteredRows req.columns
  let paginatedRows := jsSlice projected req.offset (req.offset + safeLimit)
  { totalRows := parsed.rowCount
    matchingRows := projected.length
    returnedRows := paginatedRows.length
    offset := req.offset
    limit := safeLimit
    rows := paginatedRows
    headers := selectedHeaders }

/-! Theorems settling the claims. -/

/-- The non-null total used by `detectColumnType`. -/
def totalCount (values : List Cell) : ℕ :=
  numCount values + textCount values + dateCount values

theorem ratFrac_gt (n t : ℕ) (h : n ≤ t) :
    ((4 : ℚ) / 5 < (n : ℚ) / (t : ℚ)) ↔ 4 * t < 5 * n := by
  rcases Nat.eq_zero_or_pos t with ht | ht
  · subst ht
    have hn : n = 0 := Nat.le_zero.mp h
    subst hn
    norm_num
  · have ht' : (0 : ℚ) < (t : ℚ) := by exact_mod_cast ht
    rw [div_lt_div_iff₀ (by norm_num) ht']
    constructor
    · intro hlt
      have : (4 * t : ℚ) < (5 * n : ℚ) := by linarith
      exact_mod_cast this
    · intro hlt
      have : (4 * t : ℚ) < (5 * n : ℚ) := by exact_mod_cast hlt
      push_cast at this
      linarith

theorem detectColumnType_nat (values : List Cell) :
    detectColumnType values =
      (if 4 * totalCount values < 5 * numCount values then ColType.numeric
       else if 4 * totalCount values < 5 * dateCount values then ColType.date
       else if 4 * totalCount values < 5 * textCount values then ColType.text
       else ColType.mixed) := by
  have hn : numCount values ≤ totalCount values := by unfold totalCount; omega
  have hd : dateCount values ≤ totalCount values := by unfold totalCount; omega
  have ht : textCount values ≤ totalCount values := by unfold totalCount; omega
  simp only [detectColumnType, gt_iff_lt, totalCount] at *
  simp only [ratFrac_gt _ _ hn, ratFrac_gt _ _ hd, ratFrac_gt _ _ ht]

/-- C2 (counterexample): a column of four numbers and one text value has a
numeric fraction of exactly 80%, yet the code classifies it `mixed`, not
`numeric` — the threshold comparison is strict. -/
theorem dominance_at_exact_threshold_is_mixed :
    detectColumnType
        [Cell.num 1, Cell.num 2, Cell.num 3, Cell.num 4, Cell.str "x"] =
      ColType.mixed ∧ ColType.mixed ≠ ColType.numeric := by
  rw [detectColumnType_nat]
  decide

/-- C2 (amended): the profiler classifies by a strict `> 80%` dominance rule
over non-null values, numeric first, then date, then text: a type wins
exactly when strictly more than 80% of the non-null values match it (and no
earlier-tested type already won), and the column is `mixed` exactly when no
type exceeds the threshold — in particular a matching fraction of exactly 80%
does not win. -/
theorem detectColumnType_strict_dominance (values : List Cell) :
    (detectColumnType values = ColType.numeric ↔
      4 * totalCount values < 5 * numCount values) ∧
    (detectColumnType values = ColType.date ↔
      ¬ 4 * totalCount values < 5 * numCount values ∧
        4 * totalCount values < 5 * dateCount values) ∧
    (detectColumnType values = ColType.text ↔
      ¬ 4 * totalCount values < 5 * numCount values ∧
        ¬ 4 * totalCount values < 5 * dateCount values ∧
        4 * totalCount values < 5 * textCount values) ∧
    (detectColumnType values = ColType.mixed ↔
      ¬ 4 * totalCount values < 5 * numCount values ∧
        ¬ 4 * totalCount values < 5 * dateCount values ∧
        ¬ 4 * totalCount values < 5 * textCount values) := by
  rw [detectColumnType_nat]
  split_ifs with h1 h2 h3 <;> simp_all

/-- C4 (counterexample): under the filter `sales greater_than 100`, the row
whose `sales` value is the string `'abc'` is NOT excluded: the string
fallback compares `"abc" > "100"`, which is true, so the result is not just
the `150` row. -/
theorem greater_than_string_fallback_matches :
    [("sales", Cell.str "abc")] ∈
        applyFilters
          [[("sales", Cell.num 50)], [("sales", Cell.num 150)],
            [("sales", Cell.str "abc")]]
          [⟨"sales", FilterOp.greater_than, Cell.num 100⟩] ∧
      applyFilters
          [[("sales", Cell.num 50)], [("sales", Cell.num 150)],
            [("sales", Cell.str "abc")]]
          [⟨"sales", FilterOp.greater_than, Cell.num 100⟩] ≠
        [[("sales", Cell.num 150)]] := by
  decide

/-- C4 (amended): the filter `sales greater_than 100` over
`[{sales:50},{sales:150},{sales:'abc'}]` returns the rows with `150` AND
`'abc'` (no error): `50` fails the numeric comparison, `150` passes it, and
the `'abc'` row passes the string-comparison fallback (`"abc" > "100"`);
greater_than compares numerically when both operands are numbers and falls
back to string comparison otherwise. -/
theorem filter_greater_than_example :
    applyFilters
        [[("sales", Cell.num 50)], [("sales", Cell.num 150)],
          [("sales", Cell.str "abc")]]
        [⟨"sales", FilterOp.greater_than, Cell.num 100⟩] =
      [[("sales", Cell.num 150)], [("sales", Cell.str "abc")]] ∧
    evalFilterOp FilterOp.greater_than (Cell.num 50) (Cell.num 100) = false ∧
    evalFilterOp FilterOp.greater_than (Cell.num 150) (Cell.num 100) = true ∧
    evalFilterOp FilterOp.greater_than (Cell.str "abc") (Cell.num 100) =
      jsStrLt "100".data "abc".data ∧
    jsStrLt "100".data "abc".data = true := by
  refine ⟨by decide, by decide, by decide, rfl, by decide⟩

/-- C5 (counterexample): with no tabular attachment, `analyzeIntent` returns
confidence `high`, not `low` as the claim states. -/
theorem analyzeIntent_no_attachment_high_confidence :
    (analyzeIntent "can you plot a pie chart of region" false none).confidence =
        Confidence.high ∧
      Confidence.high ≠ Confidence.low := by
  exact ⟨rfl, by decide⟩

/-- C5 (amended): for every prompt, if no tabular (CSV) attachment is
present, `analyzeIntent` immediately returns the fully negative result —
`shouldAnalyze = false`, `chartType = null`, `columns = []`,
`isComparison = false` — with confidence `high` (not `low`), without running
the keyword analysis. -/
theorem analyzeIntent_no_attachment (prompt : String)
    (csvHeaders : Option (List String)) :
    analyzeIntent prompt false csvHeaders =
      { shouldAnalyze := false
        chartType := none
        columns := []
        isComparison := false
        confidence := Confidence.high } := rfl

/-- C3 (counterexample): a table with TWO text columns (the first with 3
unique values) and exactly one numeric column does trigger the categorical
column-chart rule — the code only requires `textColumns.length > 0`, so the
claim that rule 2 requires exactly one text column (and otherwise falls
through to the later rules, here the histogram rule) is false. -/
theorem rule2_fires_with_two_text_columns :
    generateVisualizationRecommendations
        [{ column := "a", type := ColType.text, count := 3, nullCount := 0,
           uniqueCount := 3 },
         { column := "b", type := ColType.text, count := 3, nullCount := 0,
           uniqueCount := 3 },
         { column := "c", type := ColType.numeric, count := 3, nullCount := 0,
           uniqueCount := 3 }] =
      { suggestedChartType := "column", xAxis := some "a", yAxis := some ["c"],
        reasoning := "Categorical data with numeric values. Column chart shows comparison between categories." } ∧
    "column" ≠ "histogram" := by
  decide

/-- C3 (amended): when the date+numeric rule does not apply, the recommender
suggests a categorical column chart exactly when there is AT LEAST one text
column, exactly one numeric column, and some text column has unique-value
count < 20: x is the FIRST such text column and y the numeric column.  When
no text column passes the unique-count test (or there is no text column),
rule 2 does not fire and — with exactly one numeric column — evaluation falls
through to the histogram rule. -/
theorem recommend_categorical_column_rule (stats : List ColumnStats)
    (catCol : ColumnStats)
    (hdate : stats.filter (fun c => decide (c.type = ColType.date)) = [])
    (hnum : (stats.filter (fun c => decide (c.type = ColType.numeric))).length = 1) :
    ((stats.filter (fun c => decide (c.type = ColType.text))).find?
        (fun c => decide (c.uniqueCount < 20)) = some catCol →
      generateVisualizationRecommendations stats =
        { suggestedChartType := "column"
          xAxis := some catCol.column
          yAxis := some [firstColumnName
            (stats.filter (fun c => decide (c.type = ColType.numeric)))]
          reasoning := "Categorical data with numeric values. Column chart shows comparison between categories." }) ∧
    ((stats.filter (fun c => decide (c.type = ColType.text))).find?
        (fun c => decide (c.uniqueCount < 20)) = none →
      generateVisualizationRecommendations stats =
        { suggestedChartType := "histogram"
          xAxis := some (firstColumnName
            (stats.filter (fun c => decide (c.type = ColType.numeric))))
          yAxis := some []
          reasoning := "Single numeric column. Histogram shows data distribution." }) := by
  constructor
  · intro hfind
    have htext : (stats.filter (fun c => decide (c.type = ColType.text))).isEmpty = false := by
      rcases hmem : stats.filter (fun c => decide (c.type = ColType.text)) with _ | ⟨hd, tl⟩
      · rw [hmem] at hfind
        simp at hfind
      · simp [hmem]
    simp only [generateVisualizationRecommendations, hdate, hnum, htext, hfind,
      List.isEmpty_nil, Bool.not_true, Bool.false_and, Bool.if_false_left,
      Bool.not_false, Bool.true_and]
    norm_num
  · intro hfind
    simp only [generateVisualizationRecommendations, hdate, hnum, hfind,
      List.isEmpty_nil, Bool.not_true, Bool.false_and]
    norm_num

/-- C3 (witness): the two-branch rule applied to concrete stats lists. -/
theorem recommend_categorical_column_rule_witness :
    generateVisualizationRecommendations
        [{ column := "t", type := ColType.text, count := 2, nullCount := 0,
           uniqueCount := 2 },
         { column := "n", type := ColType.numeric, count := 2, nullCount := 0,
           uniqueCount := 2 }] =
      { suggestedChartType := "column", xAxis := some "t", yAxis := some ["n"],
        reasoning := "Categorical data with numeric values. Column chart shows comparison between categories." } ∧
    generateVisualizationRecommendations
        [{ column := "t", type := ColType.text, count := 2, nullCount := 0,
           uniqueCount := 25 },
         { column := "n", type := ColType.numeric, count := 2, nullCount := 0,
           uniqueCount := 2 }] =
      { suggestedChartType := "histogram", xAxis := some "n", yAxis := some [],
        reasoning := "Single numeric column. Histogram shows data distribution." } := by
  constructor
  · exact (recommend_categorical_column_rule _
      { column := "t", type := ColType.text, count := 2, nullCount := 0,
        uniqueCount := 2 } (by decide) (by decide)).1 (by decide)
  · exact (recommend_categorical_column_rule _
      { column := "t", type := ColType.text, count := 2, nullCount := 0,
        uniqueCount := 25 } (by decide) (by decide)).2 (by decide)

/-- C8 (confirmed): whenever the column stats contain at least one date
column and at least one numeric column, the recommender returns a line chart
with x the first date column (in stats order, hence regardless of where the
date column sits) and y all numeric columns. -/
theorem recommend_line_for_date_numeric (stats : List ColumnStats)
    (hdate : stats.filter (fun c => decide (c.type = ColType.date)) ≠ [])
    (hnum : stats.filter (fun c => decide (c.type = ColType.numeric)) ≠ []) :
    generateVisualizationRecommendations stats =
      { suggestedChartType := "line"
        xAxis := ((stats.filter (fun c => decide (c.type = ColType.date))).head?).map
          ColumnStats.column
        yAxis := some ((stats.filter (fun c => decide (c.type = ColType.numeric))).map
          ColumnStats.column)
        reasoning := "Time series data detected. Line chart shows trends over time." } := by
  have h1 : (stats.filter (fun c => decide (c.type = ColType.date))).isEmpty = false := by
    simpa [List.isEmpty_iff] using hdate
  have h2 : (stats.filter (fun c => decide (c.type = ColType.numeric))).isEmpty = false := by
    simpa [List.isEmpty_iff] using hnum
  simp only [generateVisualizationRecommendations, h1, h2, Bool.not_false,
    Bool.and_self, if_true]

/-- C8 (witness): one numeric column followed by one date column still gives
a line chart with x the date column. -/
theorem recommend_line_for_date_numeric_witness :
    generateVisualizationRecommendations
        [{ column := "sales", type := ColType.numeric, count := 2,
           nullCount := 0, uniqueCount := 2 },
         { column := "date", type := ColType.date, count := 2, nullCount := 0,
           uniqueCount := 2 }] =
      { suggestedChartType := "line", xAxis := some "date",
        yAxis := some ["sales"],
        reasoning := "Time series data detected. Line chart shows trends over time." } := by
  have h := recommend_line_for_date_numeric
    [{ column := "sales", type := ColType.numeric, count := 2,
       nullCount := 0, uniqueCount := 2 },
     { column := "date", type := ColType.date, count := 2, nullCount := 0,
       uniqueCount := 2 }] (by decide) (by decide)
  simpa using h

theorem jsSlice_length_le (l : List Row) (off sl : ℤ) (hsl : 0 ≤ sl) :
    ((jsSlice l off (off + sl)).length : ℤ) ≤ sl := by
  simp only [jsSlice, List.length_drop, List.length_take]
  split_ifs <;> omega

/-- C7 (counterexample): a caller-requested limit of `-5` over six rows
returns one row (JS `slice(0, -5)` counts the negative end from the end of
the array), so `returnedRows.length <= limit` fails for the applied limit
`min(-5, 1000) = -5`. -/
theorem query_negative_limit_exceeds :
    (queryCSVRowsCore
          ⟨["a"], List.replicate 6 [("a", Cell.num 1)], 6, 1⟩
          { limit := -5 }).returnedRows = 1 ∧
    (queryCSVRowsCore
          ⟨["a"], List.replicate 6 [("a", Cell.num 1)], 6, 1⟩
          { limit := -5 }).limit = -5 ∧
    ¬ (((queryCSVRowsCore
          ⟨["a"], List.replicate 6 [("a", Cell.num 1)], 6, 1⟩
          { limit := -5 }).returnedRows : ℤ) ≤
        (queryCSVRowsCore
          ⟨["a"], List.replicate 6 [("a", Cell.num 1)], 6, 1⟩
          { limit := -5 }).limit) := by
  refine ⟨rfl, rfl, by decide⟩

/-- C7 (amended): the applied limit is always `min(requested, 1000) ≤ 1000`,
and pagination is `rows.slice(offset, offset + appliedLimit)` applied
strictly after filtering and column projection; whenever the caller-requested
limit is nonnegative (e.g. the schema default 50), the number of returned
rows does not exceed the applied limit.  (For a negative requested limit the
row-count bound fails, as the counterexample shows.) -/
theorem query_limit_clamped (parsed : ParsedCSV) (req : QueryRequest) :
    (queryCSVRowsCore parsed req).limit = min req.limit 1000 ∧
    (queryCSVRowsCore parsed req).limit ≤ 1000 ∧
    (queryCSVRowsCore parsed req).rows =
      jsSlice (selectColumns (applyFilters parsed.rows req.filters) req.columns)
        req.offset (req.offset + min req.limit 1000) ∧
    (0 ≤ req.limit →
      ((queryCSVRowsCore parsed req).returnedRows : ℤ) ≤
        (queryCSVRowsCore parsed req).limit) := by
  refine ⟨rfl, min_le_right _ _, rfl, fun hreq => ?_⟩
  have hsl : (0 : ℤ) ≤ min req.limit 1000 := le_min hreq (by norm_num)
  exact jsSlice_length_le _ req.offset (min req.limit 1000) hsl

/-- C7 (witness): the amended bound at a concrete request (limit 3, offset 1
over six rows). -/
theorem query_limit_clamped_witness :
    (0 : ℤ) ≤ (3 : ℤ) ∧
    ((queryCSVRowsCore
          ⟨["a"], List.replicate 6 [("a", Cell.num 1)], 6, 1⟩
          { limit := 3, offset := 1 }).returnedRows : ℤ) ≤
      (queryCSVRowsCore
          ⟨["a"], List.replicate 6 [("a", Cell.num 1)], 6, 1⟩
          { limit := 3, offset := 1 }).limit :=
  ⟨by norm_num,
    (query_limit_clamped
        ⟨["a"], List.replicate 6 [("a", Cell.num 1)], 6, 1⟩
        { limit := 3, offset := 1 }).2.2.2 (by norm_num)⟩

theorem analyzeColumn_count (c : String) (r : List Row) :
    (analyzeColumn c r).count = (nonNullValues c r).length := by
  simp only [analyzeColumn]
  split_ifs <;> rfl

theorem analyzeColumn_nullCount (c : String) (r : List Row) :
    (analyzeColumn c r).nullCount = r.length - (nonNullValues c r).length := by
  simp only [analyzeColumn]
  split_ifs <;> rfl

theorem analyzeColumn_type (c : String) (r : List Row) :
    (analyzeColumn c r).type = detectColumnType (nonNullValues c r) := by
  simp only [analyzeColumn]
  split_ifs <;> rfl

theorem analyzeColumn_numeric_fields (c : String) (r : List Row)
    (h : detectColumnType (nonNullValues c r) = ColType.numeric) :
    (analyzeColumn c r).min =
        (calculateNumericStats (numericValuesOf (nonNullValues c r))).min ∧
      (analyzeColumn c r).median =
        (calculateNumericStats (numericValuesOf (nonNullValues c r))).median ∧
      (analyzeColumn c r).max =
        (calculateNumericStats (numericValuesOf (nonNullValues c r))).max := by
  simp only [analyzeColumn, h]
  simp

theorem nonNullValues_length_le (c : String) (r : List Row) :
    (nonNullValues c r).length ≤ r.length := by
  unfold nonNullValues
  calc (List.filterMap _ (r.map fun row => row.lookup c)).length
      ≤ (r.map fun row => row.lookup c).length := List.length_filterMap_le _ _
    _ = r.length := List.length_map _ _

theorem nonNullValues_not_null (c : String) (r : List Row) :
    ∀ x ∈ nonNullValues c r, cellIsNull x = false := by
  intro a ha
  unfold nonNullValues at ha
  obtain ⟨o, _, ho⟩ := List.mem_filterMap.mp ha
  match o with
  | none => simp at ho
  | some cell =>
    by_cases hn : cellIsNull cell
    · simp [hn] at ho
    · simp [hn] at ho
      subst ho
      simpa using hn

theorem numericValuesOf_length (l : List Cell) :
    (numericValuesOf l).length = (l.filter cellIsNum).length := by
  unfold numericValuesOf
  induction l with
  | nil => rfl
  | cons hd tl ih =>
    cases hd <;> simp [List.filterMap_cons, List.filter_cons, cellIsNum, ih]

theorem numCount_nonNull (c : String) (r : List Row) :
    numCount (nonNullValues c r) = (numericValuesOf (nonNullValues c r)).length := by
  unfold numCount
  have hself : (nonNullValues c r).filter (fun x => !cellIsNull x) =
      nonNullValues c r := by
    apply List.filter_eq_self.mpr
    intro a ha
    simp [nonNullValues_not_null c r a ha]
  rw [hself, numericValuesOf_length]

theorem calculateNumericStats_bounds (values : List ℚ) (hne : values ≠ []) :
    ∃ mn md mx, (calculateNumericStats values).min = some mn ∧
      (calculateNumericStats values).median = some md ∧
      (calculateNumericStats values).max = some mx ∧ mn ≤ md ∧ md ≤ mx := by
  have hlen : (List.insertionSort (fun a b => a ≤ b) values).length = values.length :=
    List.length_insertionSort _ _
  have hpos : 0 < (List.insertionSort (fun a b => a ≤ b) values).length := by
    rw [hlen]
    exact List.length_pos.mpr hne
  have hsne : List.insertionSort (fun a b => a ≤ b) values ≠ [] :=
    List.ne_nil_of_length_pos hpos
  have hsorted : List.Sorted (fun a b => a ≤ b)
      (List.insertionSort (fun a b => a ≤ b) values) :=
    List.sorted_insertionSort _ _
  have hmid : (List.insertionSort (fun a b => a ≤ b) values).length / 2 <
      (List.insertionSort (fun a b => a ≤ b) values).length :=
    Nat.div_lt_self hpos (by norm_num)
  refine ⟨(List.insertionSort (fun a b => a ≤ b) values).get ⟨0, hpos⟩,
    (List.insertionSort (fun a b => a ≤ b) values).get
      ⟨(List.insertionSort (fun a b => a ≤ b) values).length / 2, hmid⟩,
    (List.insertionSort (fun a b => a ≤ b) values).get
      ⟨(List.insertionSort (fun a b => a ≤ b) values).length - 1, by omega⟩,
    ?_, ?_, ?_, ?_, ?_⟩
  · simp only [calculateNumericStats]
    rw [List.head?_eq_head hsne]
    congr 1
    rw [List.head_eq_getElem, List.get_eq_getElem]
  · simp only [calculateNumericStats]
    rw [List.get?_eq_get hmid]
  · simp only [calculateNumericStats]
    rw [List.getLastD_eq_getLast?, List.getLast?_eq_getLast_of_ne_nil hsne]
    simp only [Option.getD_some, Option.some.injEq]
    rw [List.getLast_eq_getElem, List.get_eq_getElem]
  · exact hsorted.rel_get_of_le (by simp)
  · exact hsorted.rel_get_of_le (by simp [Fin.mk_le_mk]; omega)

/-- C9 (confirmed): for every column of every table,
`count + nullCount = rowCount`; and for every column classified numeric with
`count > 0`, the min, median and max statistics exist and satisfy
`min ≤ median ≤ max`, the median being the lower-middle element (index
`⌊n/2⌋`) of the ascending-sorted numeric values. -/
theorem analyzeColumn_invariants (columnName : String) (rows : List Row) :
    (analyzeColumn columnName rows).count +
        (analyzeColumn columnName rows).nullCount = rows.length ∧
      ((analyzeColumn columnName rows).type = ColType.numeric →
        0 < (analyzeColumn columnName rows).count →
        ∃ mn md mx, (analyzeColumn columnName rows).min = some mn ∧
          (analyzeColumn columnName rows).median = some md ∧
          (analyzeColumn columnName rows).max = some mx ∧
          mn ≤ md ∧ md ≤ mx) := by
  constructor
  · rw [analyzeColumn_count, analyzeColumn_nullCount]
    have := nonNullValues_length_le columnName rows
    omega
  · intro htype _hcount
    rw [analyzeColumn_type] at htype
    have hpos : 0 < numCount (nonNullValues columnName rows) := by
      rw [detectColumnType_nat] at htype
      split_ifs at htype with h1 h2 h3
      simp_all
      omega
    have hne : numericValuesOf (nonNullValues columnName rows) ≠ [] := by
      rw [numCount_nonNull] at hpos
      exact List.ne_nil_of_length_pos hpos
    obtain ⟨hmin, hmed, hmax⟩ := analyzeColumn_numeric_fields columnName rows htype
    obtain ⟨mn, md, mx, h1, h2, h3, h4, h5⟩ := calculateNumericStats_bounds _ hne
    exact ⟨mn, md, mx, hmin.trans h1, hmed.trans h2, hmax.trans h3, h4, h5⟩

/-- C9 (witness): the invariants at a small concrete numeric column. -/
theorem analyzeColumn_invariants_witness :
    (analyzeColumn "a"
        [[("a", Cell.num 3)], [("a", Cell.num 1)], [("a", Cell.str "")],
          [("a", Cell.num 2)]]).count +
      (analyzeColumn "a"
        [[("a", Cell.num 3)], [("a", Cell.num 1)], [("a", Cell.str "")],
          [("a", Cell.num 2)]]).nullCount = 4 ∧
    (∃ mn md mx,
      (analyzeColumn "a"
        [[("a", Cell.num 3)], [("a", Cell.num 1)], [("a", Cell.str "")],
          [("a", Cell.num 2)]]).min = some mn ∧
      (analyzeColumn "a"
        [[("a", Cell.num 3)], [("a", Cell.num 1)], [("a", Cell.str "")],
          [("a", Cell.num 2)]]).median = some md ∧
      (analyzeColumn "a"
        [[("a", Cell.num 3)], [("a", Cell.num 1)], [("a", Cell.str "")],
          [("a", Cell.num 2)]]).max = some mx ∧
      mn ≤ md ∧ md ≤ mx) := by
  have h := analyzeColumn_invariants "a"
    [[("a", Cell.num 3)], [("a", Cell.num 1)], [("a", Cell.str "")],
      [("a", Cell.num 2)]]
  refine ⟨h.1, h.2 ?_ ?_⟩
  · rw [analyzeColumn_type, detectColumnType_nat]
    decide
  · rw [analyzeColumn_count]
    decide

/-- C10 (confirmed): a column whose every cell is the empty string still
profiles without failing: type `mixed` (no type reaches the threshold over
zero non-null values), `count = 0`, `nullCount = rowCount`,
`uniqueCount = 0`, `mostCommon = ''` with `mostCommonCount = 0`. -/
theorem analyzeColumn_all_empty (columnName : String) (rows : List Row)
    (h : ∀ row ∈ rows, row.lookup columnName = some (Cell.str "")) :
    analyzeColumn columnName rows =
      { column := columnName, type := ColType.mixed, count := 0,
        nullCount := rows.length, uniqueCount := 0,
        mostCommon := some "", mostCommonCount := some 0 } := by
  have hnn : nonNullValues columnName rows = [] := by
    unfold nonNullValues
    rw [List.filterMap_eq_nil_iff]
    intro a ha
    obtain ⟨row, hrow, rfl⟩ := List.mem_map.mp ha
    rw [h row hrow]
    simp [cellIsNull]
  have hmixed : detectColumnType ([] : List Cell) = ColType.mixed := by
    rw [detectColumnType_nat]
    decide
  simp only [analyzeColumn, hnn, hmixed]
  simp [findMostCommon, freqTable, List.dedup_nil]

/-- C10 (witness): the all-empty-column result at two concrete rows. -/
theorem analyzeColumn_all_empty_witness :
    analyzeColumn "a" [[("a", Cell.str "")], [("a", Cell.str "")]] =
      { column := "a", type := ColType.mixed, count := 0, nullCount := 2,
        uniqueCount := 0, mostCommon := some "", mostCommonCount := some 0 } :=
  analyzeColumn_all_empty "a" [[("a", Cell.str "")], [("a", Cell.str "")]]
    (by decide)

theorem histValues_eq_map (parsed : ParsedCSV) (columnStats : List ColumnStats) :
    histValues parsed columnStats =
      parsed.rows.map
        (fun row => safeNumber (row.lookup (histColumn parsed columnStats))) := by
  unfold histValues
  apply List.filter_eq_self.mpr
  intro a ha
  by_cases h0 : a = 0
  · subst h0
    simp only [Bool.or_eq_true, List.any_eq_true]
    exact Or.inr ⟨0, ha, by simp⟩
  · simp [h0]

theorem incAt_length (l : List ℕ) (i : ℕ) : (incAt l i).length = l.length :=
  List.length_set l i _

theorem incAt_sum (l : List ℕ) (i : ℕ) (h : i < l.length) :
    (incAt l i).sum = l.sum + 1 := by
  unfold incAt
  induction l generalizing i with
  | nil => simp at h
  | cons hd tl ih =>
    cases i with
    | zero => simp [List.set]; omega
    | succ n =>
      simp only [List.set, List.getD_cons_succ, List.sum_cons]
      have := ih n (by simpa using h)
      omega

theorem getD_incAt (l : List ℕ) (j i : ℕ) (hj : j < l.length) :
    (incAt l j).getD i 0 = l.getD i 0 + (if j = i then 1 else 0) := by
  unfold incAt
  induction l generalizing i j with
  | nil => simp at hj
  | cons hd tl ih =>
    cases j with
    | zero =>
      cases i with
      | zero => simp [List.set]
      | succ m => simp [List.set]
    | succ n =>
      cases i with
      | zero => simp [List.set]
      | succ m =>
        simp only [List.set, List.getD_cons_succ]
        rw [ih n m (by simpa using hj)]
        simp [Nat.succ_inj]

theorem foldl_incAt_length (values : List ℚ) (f : ℚ → ℕ) (init : List ℕ) :
    (values.foldl (fun b v => incAt b (f v)) init).length = init.length := by
  induction values generalizing init with
  | nil => rfl
  | cons hd tl ih => rw [List.foldl_cons, ih, incAt_length]

theorem foldl_incAt_sum (values : List ℚ) (f : ℚ → ℕ) (init : List ℕ)
    (h : ∀ v ∈ values, f v < init.length) :
    (values.foldl (fun b v => incAt b (f v)) init).sum =
      init.sum + values.length := by
  induction values generalizing init with
  | nil => simp
  | cons hd tl ih =>
    rw [List.foldl_cons, ih _ (fun v hv => by
      rw [incAt_length]
      exact h v (List.mem_cons_of_mem hd hv))]
    rw [incAt_sum _ _ (h hd (List.mem_cons_self hd tl))]
    simp
    omega

theorem foldl_incAt_getD (values : List ℚ) (f : ℚ → ℕ) (init : List ℕ)
    (h : ∀ v ∈ values, f v < init.length) (i : ℕ) :
    (values.foldl (fun b v => incAt b (f v)) init).getD i 0 =
      init.getD i 0 + (values.filter (fun v => f v == i)).length := by
  induction values generalizing init with
  | nil => simp
  | cons hd tl ih =>
    rw [List.foldl_cons, ih _ (fun v hv => by
      rw [incAt_length]
      exact h v (List.mem_cons_of_mem hd hv))]
    rw [getD_incAt _ _ _ (h hd (List.mem_cons_self hd tl))]
    rw [List.filter_cons]
    by_cases hfi : f hd = i
    · simp [hfi]
      omega
    · simp [hfi]

theorem histBinIndex_lt_ten (values : List ℚ) (v : ℚ) :
    histBinIndex values v < 10 := by
  unfold histBinIndex
  dsimp only
  split_ifs
  · exact lt_of_le_of_lt (min_le_right _ _) (by norm_num)
  · norm_num

/-- C6 (confirmed): for every parsed table with at least one data row, the
histogram branch produces exactly 10 labels and 10 bins, the bin counts sum
to the number of input values of the chosen numeric column (the source's
zero-keeping filter retains every value), each value lands in the bin
`min(floor((v-min)/binWidth), 9)` (index 0 when the range is zero), and the
bin width is the synthetic 1 when min = max. -/
theorem histogram_ten_bins (parsed : ParsedCSV) (columnStats : List ColumnStats)
    (h : parsed.rows ≠ []) :
    (generateChartDataHistogram parsed columnStats).labels.length = 10 ∧
    (generateChartDataHistogram parsed columnStats).binData.length = 10 ∧
    (generateChartDataHistogram parsed columnStats).binData.sum =
      (histValues parsed columnStats).length ∧
    (∀ i, i < 10 →
      (generateChartDataHistogram parsed columnStats).binData.getD i 0 =
        ((histValues parsed columnStats).filter
          (fun v => histBinIndex (histValues parsed columnStats) v == i)).length) ∧
    (jsMin (histValues parsed columnStats) = jsMax (histValues parsed columnStats) →
      histBinSize (histValues parsed columnStats) = 1) := by
  have hne : (histValues parsed columnStats).isEmpty = false := by
    rw [histValues_eq_map]
    simpa [List.isEmpty_iff] using h
  have hbound : ∀ v ∈ histValues parsed columnStats,
      histBinIndex (histValues parsed columnStats) v <
        (List.replicate 10 0 : List ℕ).length := by
    intro v _
    simpa using histBinIndex_lt_ten (histValues parsed columnStats) v
  refine ⟨?_, ?_, ?_, ?_, ?_⟩
  · simp only [generateChartDataHistogram, hne, Bool.false_eq_true, if_false]
    simp
  · simp only [generateChartDataHistogram, hne, Bool.false_eq_true, if_false]
    rw [foldl_incAt_length]
    simp
  · simp only [generateChartDataHistogram, hne, Bool.false_eq_true, if_false]
    rw [foldl_incAt_sum _ _ _ hbound]
    simp
  · intro i hi
    simp only [generateChartDataHistogram, hne, Bool.false_eq_true, if_false]
    rw [foldl_incAt_getD _ _ _ hbound]
    have hrep : (List.replicate 10 (0 : ℕ)).getD i 0 = 0 := by
      interval_cases i <;> rfl
    rw [hrep]
    omega
  · intro heq
    unfold histBinSize
    simp [heq]

/-- C6 (witness): three rows give 10 labels and bin counts summing to 3. -/
theorem histogram_ten_bins_witness :
    (generateChartDataHistogram
        ⟨["v"], [[("v", Cell.num 1)], [("v", Cell.num 5)], [("v", Cell.num 10)]],
          3, 1⟩
        [{ column := "v", type := ColType.numeric, count := 3, nullCount := 0,
           uniqueCount := 3 }]).labels.length = 10 ∧
    (generateChartDataHistogram
        ⟨["v"], [[("v", Cell.num 1)], [("v", Cell.num 5)], [("v", Cell.num 10)]],
          3, 1⟩
        [{ column := "v", type := ColType.numeric, count := 3, nullCount := 0,
           uniqueCount := 3 }]).binData.sum = 3 := by
  have h := histogram_ten_bins
    ⟨["v"], [[("v", Cell.num 1)], [("v", Cell.num 5)], [("v", Cell.num 10)]],
      3, 1⟩
    [{ column := "v", type := ColType.numeric, count := 3, nullCount := 0,
       uniqueCount := 3 }] (by decide)
  refine ⟨h.1, ?_⟩
  rw [h.2.2.1, histValues_eq_map]
  rfl

theorem parseCSVrow_lookup_none (headers : List String)
    (raw : List (String × String)) (h : String) (hh : h ∉ headers) :
    (parseCSVrow headers raw).lookup h = none := by
  induction headers with
  | nil => rfl
  | cons hd tl ih =>
    unfold parseCSVrow
    rw [List.filterMap_cons]
    have hne : h ≠ hd := fun he => hh (he ▸ List.mem_cons_self hd tl)
    have htl : h ∉ tl := fun ht => hh (List.mem_cons_of_mem hd ht)
    cases hlk : raw.lookup hd with
    | none =>
      simp only [Option.map_none']
      exact ih htl
    | some v =>
      simp only [Option.map_some', List.lookup_cons]
      rw [show (h == hd) = false from beq_eq_false_iff_ne.mpr hne]
      exact ih htl

theorem parseCSVrow_lookup (headers : List String) (hnd : headers.Nodup)
    (raw : List (String × String)) (h : String) (hh : h ∈ headers) :
    (parseCSVrow headers raw).lookup h = (raw.lookup h).map convertCell := by
  induction headers with
  | nil => simp at hh
  | cons hd tl ih =>
    unfold parseCSVrow
    rw [List.filterMap_cons]
    rcases List.mem_cons.mp hh with rfl | hmem
    · have htl : h ∉ tl := (List.nodup_cons.mp hnd).1
      cases hlk : raw.lookup h with
      | none =>
        simp only [Option.map_none']
        rw [show (List.filterMap
            (fun hh => (raw.lookup hh).map (fun v => (hh, convertCell v))) tl) =
            parseCSVrow tl raw from rfl]
        rw [parseCSVrow_lookup_none tl raw h htl]
      | some v =>
        simp [List.lookup_cons]
    · have hne : h ≠ hd := by
        intro he
        subst he
        exact (List.nodup_cons.mp hnd).1 hmem
      have := ih (List.nodup_cons.mp hnd).2 hmem
      cases hlk : raw.lookup hd with
      | none =>
        simpa [parseCSVrow] using this
      | some v =>
        simp only [Option.map_some', List.lookup_cons]
        rw [show (h == hd) = false from beq_eq_false_iff_ne.mpr hne]
        simpa [parseCSVrow] using this

/-- C1 (counterexample): the cell `'42abc'` does NOT parse entirely as a
finite decimal, yet `parseCSV` converts it to the number 42 —
`Number.parseFloat` accepts the numeric prefix, so the cell is not retained
as a string. -/
theorem parseCSV_converts_partial_prefix :
    parseCSV [[("a", "42abc")]] =
        Except.ok ⟨["a"], [[("a", Cell.num 42)]], 1, 1⟩ ∧
      Cell.num 42 ≠ Cell.str "42abc" := by
  constructor
  · simp [parseCSV, parseCSVrow, convertCell, isNumeric, parseFloatVal,
      jsParseFloat, parseDecimal, spanDigits, natFromDigits, isWS,
      parseDecimal.parseExpTail]
  · decide

/-- C1 (amended): every cell of every parsed row is the `convertCell` image
of the corresponding raw cell, and a cell converts to a number exactly when
it is nonempty and JS `parseFloat` finds a finite numeric PREFIX (not
necessarily the whole string — `'42abc'` becomes 42); only cells with no
finite numeric prefix are retained unchanged as strings. -/
theorem parseCSV_cell_conversion (data : List (List (String × String)))
    (p : ParsedCSV) (hok : parseCSV data = Except.ok p) (hnd : p.headers.Nodup)
    (i : ℕ) (raw : List (String × String)) (hi : data.get? i = some raw)
    (h : String) (hh : h ∈ p.headers) :
    ((p.rows.get? i).map (fun row => row.lookup h)) =
        some ((raw.lookup h).map convertCell) ∧
      (∀ v q, convertCell v = Cell.num q ↔
        (v ≠ "" ∧ jsParseFloat v = JSNum.fin q)) ∧
      (∀ v, (¬ ∃ q, jsParseFloat v = JSNum.fin q) →
        convertCell v = Cell.str v) := by
  refine ⟨?_, ?_, ?_⟩
  · unfold parseCSV at hok
    rcases hdata : data.isEmpty with hfalse | htrue
    · rw [hdata] at hok
      simp only [Bool.false_eq_true, if_false, Except.ok.injEq] at hok
      subst hok
      simp only [List.get?_eq_getElem?, List.getElem?_map]
      rw [List.get?_eq_getElem? data i] at hi
      rw [hi]
      simp only [Option.map_some', Option.some.injEq]
      exact parseCSVrow_lookup _ hnd raw h hh
    · rw [hdata] at hok
      simp at hok
  · intro v q
    constructor
    · intro hc
      unfold convertCell at hc
      by_cases hv : v = ""
      · rw [if_neg (by simp [isNumeric, hv])] at hc
        simp at hc
      · refine ⟨hv, ?_⟩
        unfold isNumeric at hc
        rw [if_neg hv] at hc
        cases hjs : jsParseFloat v with
        | nan => rw [hjs] at hc; simp at hc
        | inf b => rw [hjs] at hc; simp at hc
        | fin r =>
          rw [hjs] at hc
          simp only [if_true] at hc
          unfold parseFloatVal at hc
          rw [hjs] at hc
          cases hc
          rfl
    · rintro ⟨hv, hjs⟩
      unfold convertCell isNumeric parseFloatVal
      rw [if_neg hv, hjs]
      simp
  · intro v hnofin
    unfold convertCell isNumeric
    by_cases hv : v = ""
    · simp [hv]
    · rw [if_neg hv]
      cases hjs : jsParseFloat v with
      | nan => simp
      | inf b => simp
      | fin r => exact absurd ⟨r, hjs⟩ hnofin

/-- C1 (witness): the amended conversion rule at the concrete table with the
single cell `'42abc'`. -/
theorem parseCSV_cell_conversion_witness :
    (((⟨["a"], [[("a", Cell.num 42)]], 1, 1⟩ : ParsedCSV).rows.get? 0).map
        (fun row => row.lookup "a")) =
      some (([("a", "42abc")].lookup "a").map convertCell) ∧
    convertCell "42abc" = Cell.num 42 := by
  have hok : parseCSV [[("a", "42abc")]] =
      Except.ok ⟨["a"], [[("a", Cell.num 42)]], 1, 1⟩ := by
    simp [parseCSV, parseCSVrow, convertCell, isNumeric, parseFloatVal,
      jsParseFloat, parseDecimal, spanDigits, natFromDigits, isWS,
      parseDecimal.parseExpTail]
  have h := parseCSV_cell_conversion [[("a", "42abc")]]
    ⟨["a"], [[("a", Cell.num 42)]], 1, 1⟩ hok (by decide) 0
    [("a", "42abc")] rfl "a" (by decide)
  refine ⟨h.1, ?_⟩
  have h2 := (h.2.1 "42abc" 42).mpr ⟨by decide, by
    simp [jsParseFloat, parseDecimal, spanDigits, natFromDigits, isWS,
      parseDecimal.parseExpTail]⟩
  exact h2

end CSV
